import Mathlib

/-!
Shallow embedding of the photo-library-server (Go/Gin/GORM) handler logic.

Entities are rows with opaque ids (modelled as Nat, standing for UUIDs).
The relational store is modelled as lists of rows inside a `DB` structure;
per the system's own modelling assumption the store is foreign-key-less:
all cascading is performed by application code, exactly as the handlers
write it.  The filesystem is a set of directories and files (lists of
path strings).  Fallible external steps (directory creation, file writes,
row inserts, transaction commits) are modelled by explicit Bool flags
given as inputs; fresh UUIDs are inputs with freshness hypotheses where
a theorem needs them.  HTTP outcomes are modelled by their status codes
(200/201/400/404/409/500) plus a `warning` flag for responses that embed
a warning field.
-/

namespace PhotoLib

/-- models.Library (src/unnamed/part_003): id, unique name, description,
unique images storage path. -/
structure Library where
  id : Nat
  name : String
  description : String
  images : String
deriving DecidableEq, Repr

/-- models.Album: id, name, description, owning library. -/
structure Album where
  id : Nat
  name : String
  description : String
  libraryId : Nat
deriving DecidableEq, Repr

/-- models.Photo: metadata row. `rating` is the nullable 0-5 rating. -/
structure Photo where
  id : Nat
  filename : String
  originalName : String
  filePath : String
  mimeType : String
  fileSize : Nat
  width : Nat
  height : Nat
  rating : Option Int
  libraryId : Nat
  uploadedAt : Nat
deriving DecidableEq, Repr

/-- models.Tag: globally unique name, optional color. -/
structure Tag where
  id : Nat
  name : String
  color : String
deriving DecidableEq, Repr

/-- models.PhotoTag: (photo_id, tag_id) association row. -/
structure PhotoTag where
  photoId : Nat
  tagId : Nat
deriving DecidableEq, Repr

/-- models.AlbumPhoto: (album_id, photo_id, order) association row. -/
structure AlbumPhoto where
  albumId : Nat
  photoId : Nat
  order : Int
deriving DecidableEq, Repr

/-- The relational store: one list of rows per table. -/
structure DB where
  libraries : List Library
  albums : List Album
  photos : List Photo
  tags : List Tag
  photoTags : List PhotoTag
  albumPhotos : List AlbumPhoto
deriving DecidableEq, Repr

/-- The filesystem: directories and files by path. -/
structure FS where
  dirs : List String
  files : List String
deriving DecidableEq, Repr

def emptyDB : DB := ⟨[], [], [], [], [], []⟩

def emptyFS : FS := ⟨[], []⟩

/-- strings.HasPrefix, over the character lists (kernel-computable). -/
def strStartsWith (s pre : String) : Bool := List.isPrefixOf pre.data s.data

/-- os.MkdirAll: create the directory if absent (idempotent). -/
def mkdirAll (fs : FS) (path : String) : FS :=
  if fs.dirs.contains path then fs else { fs with dirs := fs.dirs ++ [path] }

/-- removeDirectoryIfExists (src/unnamed/part_000): recursively remove the
directory and everything under it when it exists; no-op otherwise. -/
def removeDirIfExists (fs : FS) (path : String) : FS :=
  if fs.dirs.contains path then
    { dirs := fs.dirs.filter (fun d => d != path && !(strStartsWith d (path ++ "/"))),
      files := fs.files.filter (fun f => !(strStartsWith f (path ++ "/"))) }
  else fs

/-- os.Remove on a file path: delete the file if present. -/
def removeFile (fs : FS) (path : String) : FS :=
  { fs with files := fs.files.filter (fun f => f != path) }

/-- A successful os.Create + io.Copy: the file now exists at `path`. -/
def writeFile (fs : FS) (path : String) : FS :=
  if fs.files.contains path then fs else { fs with files := fs.files ++ [path] }

/-- filepath.Join of a directory and a file name, for the simple
separator-free names the handlers produce. -/
def joinPath (dir file : String) : String := dir ++ "/" ++ file

/-- Does the character list contain `pat` as a contiguous sublist? -/
def containsSub (pat : List Char) : List Char → Bool
  | [] => pat.isEmpty
  | c :: rest => List.isPrefixOf pat (c :: rest) || containsSub pat rest

/-- strings.Contains, over the character lists. -/
def strContains (s pat : String) : Bool := containsSub pat.data s.data

/-- strings.Split on the path separator, over the character lists. -/
def splitSlashAux : List Char → List Char → List String
  | [], acc => [String.mk acc.reverse]
  | c :: rest, acc =>
    if c = '/' then String.mk acc.reverse :: splitSlashAux rest []
    else splitSlashAux rest (c :: acc)

def splitSlash (s : String) : List String := splitSlashAux s.data []

/-- filepath.Clean (Go, lexical algorithm): collapse separators, drop `.`
elements, resolve inner `..` elements, drop `..` at the root. -/
def filepathClean (path : String) : String :=
  if path == "" then "."
  else
    let rooted := strStartsWith path "/"
    let comps := (splitSlash path).filter (fun c => c != "" && c != ".")
    let out := comps.foldl (fun acc c =>
      if c == ".." then
        match acc.getLast? with
        | some last => if last == ".." then acc ++ [c] else acc.dropLast
        | none => if rooted then acc else [c]
      else acc ++ [c]) ([] : List String)
    let s := String.intercalate "/" out
    if rooted then "/" ++ s
    else if s == "" then "." else s

/-- isValidPath (src/unnamed/part_000): reject empty paths, sensitive
system prefixes, traversal remnants, the root, and the current dir. -/
def isValidPath (path : String) : Bool :=
  if path == "" || strStartsWith path "/etc" || strStartsWith path "/sys"
      || strStartsWith path "/proc" then
    false
  else
    let cleanPath := filepathClean path
    !(strContains cleanPath "..") && cleanPath != "/" && cleanPath != "."

/-- Result of a handler that can touch both stores: final DB, final FS,
HTTP status, and whether the success response embeds a warning field. -/
structure OpResult where
  db : DB
  fs : FS
  status : Nat
  warning : Bool
deriving DecidableEq, Repr

def findLibrary (db : DB) (id : Nat) : Option Library :=
  db.libraries.find? (fun l => l.id == id)

def findPhoto (db : DB) (id : Nat) : Option Photo :=
  db.photos.find? (fun p => p.id == id)

def findAlbum (db : DB) (id : Nat) : Option Album :=
  db.albums.find? (fun a => a.id == id)

/-- CreateLibrary (src/unnamed/part_000 lines 50-101): binding validation,
path validation, duplicate-name check, duplicate-path check, directory
creation, row insert; on insert failure the directory is removed again.
`freshId` is the UUID the store assigns; `mkdirOk`/`insertOk` model the
two fallible external steps. -/
def createLibrary (db : DB) (fs : FS) (name description images : String)
    (freshId : Nat) (mkdirOk insertOk : Bool) : OpResult :=
  if name.length < 1 || name.length > 100 || description.length > 500
      || images.length < 1 || images.length > 500 then
    ⟨db, fs, 400, false⟩
  else if !isValidPath images then ⟨db, fs, 400, false⟩
  else if (db.libraries.find? (fun l => l.name == name)).isSome then
    ⟨db, fs, 409, false⟩
  else if (db.libraries.find? (fun l => l.images == images)).isSome then
    ⟨db, fs, 409, false⟩
  else if !mkdirOk then ⟨db, fs, 500, false⟩
  else
    let fs1 := mkdirAll fs images
    if insertOk then
      ⟨{ db with libraries := db.libraries ++ [⟨freshId, name, description, images⟩] },
        fs1, 201, false⟩
    else ⟨db, removeDirIfExists fs1 images, 500, false⟩

/-- DeleteLibrary (src/unnamed/part_000 lines 249-311): one transaction
deletes the photos of the library, its albums, then the library row —
and nothing else (the join tables are untouched; the code's comment
defers their cleanup to foreign-key constraints the schema does not
declare).  After commit, removeDirectoryIfExists is attempted; its
failure (`removeOk = false`) downgrades to a warning on a 200 response. -/
def deleteLibrary (db : DB) (fs : FS) (id : Nat) (txOk removeOk : Bool) :
    OpResult :=
  match findLibrary db id with
  | none => ⟨db, fs, 404, false⟩
  | some lib =>
    if !txOk then ⟨db, fs, 500, false⟩
    else
      let db1 : DB :=
        { db with
          photos := db.photos.filter (fun p => p.libraryId != id),
          albums := db.albums.filter (fun a => a.libraryId != id),
          libraries := db.libraries.filter (fun l => l.id != id) }
      if removeOk then ⟨db1, removeDirIfExists fs lib.images, 200, false⟩
      else ⟨db1, fs, 200, true⟩

/-- UpdateLibrary (src/unnamed/part_000 lines 156-246): partial update;
a changed images path triggers directory creation before the save and
directory removal if the save then fails. -/
def updateLibrary (db : DB) (fs : FS) (id : Nat)
    (nameReq descriptionReq imagesReq : Option String)
    (mkdirOk saveOk : Bool) : OpResult :=
  let nameBad : Bool := match nameReq with
    | some n => n.length < 1 || n.length > 100
    | none => false
  let descriptionBad : Bool := match descriptionReq with
    | some d => d.length > 500
    | none => false
  let imagesBad : Bool := match imagesReq with
    | some i => i.length < 1 || i.length > 500
    | none => false
  let imagesInvalid : Bool := match imagesReq with
    | some i => !isValidPath i
    | none => false
  if nameBad || descriptionBad || imagesBad then ⟨db, fs, 400, false⟩
  else if imagesInvalid then ⟨db, fs, 400, false⟩
  else
    match findLibrary db id with
    | none => ⟨db, fs, 404, false⟩
    | some lib =>
      let nameConflict : Bool := match nameReq with
        | some n => (db.libraries.find? (fun l => l.name == n && l.id != id)).isSome
        | none => false
      if nameConflict then ⟨db, fs, 409, false⟩
      else
        let pathChanged : Bool := match imagesReq with
          | some i => i != lib.images
          | none => false
        if pathChanged
            && (db.libraries.find? (fun l =>
                  l.images == imagesReq.getD lib.images && l.id != id)).isSome then
          ⟨db, fs, 409, false⟩
        else
          let newLib : Library :=
            { lib with name := nameReq.getD lib.name,
                       description := descriptionReq.getD lib.description,
                       images := imagesReq.getD lib.images }
          if pathChanged && !mkdirOk then ⟨db, fs, 500, false⟩
          else
            let fs1 := if pathChanged then mkdirAll fs newLib.images else fs
            if saveOk then
              ⟨{ db with libraries := db.libraries.map (fun l =>
                   if l.id == id then newLib else l) }, fs1, 200, false⟩
            else
              ⟨db, if pathChanged then removeDirIfExists fs1 newLib.images else fs1,
                500, false⟩

/-- Upload/list configuration (src/config/config.go defaults). -/
structure Cfg where
  maxFileSize : Nat
  allowedTypes : List String
deriving DecidableEq, Repr

def defaultCfg : Cfg :=
  ⟨50 * 1024 * 1024,
   ["image/jpeg", "image/png", "image/gif", "image/webp", "image/tiff", "image/bmp"]⟩

/-- isValidImageType (src/unnamed/part_002): membership in the allowlist. -/
def isValidImageType (cfg : Cfg) (mimeType : String) : Bool :=
  cfg.allowedTypes.contains mimeType

/-- addTagToPhoto (src/unnamed/part_002 lines 597-619): find-or-create the
tag by name, then insert the PhotoTag row.  `freshTagId` is the UUID a
newly created tag receives. -/
def addTagToPhoto (db : DB) (photoId : Nat) (tagName : String)
    (freshTagId : Nat) : DB :=
  match db.tags.find? (fun t => t.name == tagName) with
  | some tag => { db with photoTags := db.photoTags ++ [⟨photoId, tag.id⟩] }
  | none =>
    { db with tags := db.tags ++ [⟨freshTagId, tagName, ""⟩],
              photoTags := db.photoTags ++ [⟨photoId, freshTagId⟩] }

/-- The tag loop of UploadPhoto: trim each name, skip empties, apply
addTagToPhoto (its error is discarded by the handler). -/
def addTags (pid : Nat) : DB → List (String × Nat) → DB
  | db, [] => db
  | db, (n, fid) :: rest =>
    if n.trim == "" then addTags pid db rest
    else addTags pid (addTagToPhoto db pid n.trim fid) rest

/-- The structured inputs of an UploadPhoto request: `decoded` is the
image.DecodeConfig outcome on the byte stream, `ratingForm` the rating
form field (`none` absent/empty, `some none` non-integer, `some (some r)`
parsed), `filename` the generateUniqueFilename output, `photoId` the
fresh row UUID, `now` the upload timestamp. -/
structure UploadReq where
  libraryId : Nat
  originalName : String
  mimeType : String
  fileSize : Nat
  decoded : Option (Nat × Nat)
  ratingForm : Option (Option Int)
  tagInputs : List (String × Nat)
  filename : String
  photoId : Nat
  now : Nat
deriving DecidableEq, Repr

/-- The optional-rating parse of UploadPhoto (src/unnamed/part_002 lines
123-129): a present, parseable value in [0,5] is kept; anything else
(absent, non-integer, out of range) silently becomes null. -/
def ratingOf (ratingForm : Option (Option Int)) : Option Int :=
  match ratingForm with
  | some (some r) => if 0 ≤ r && r ≤ 5 then some r else none
  | _ => none

/-- UploadPhoto (src/unnamed/part_002 lines 37-166): verify library, MIME
type, size; decode dimensions (failure aborts before any write); ensure
the directory; create and fill the file (a failed io.Copy removes the
partial file); parse the optional rating (out-of-range or non-integer
values silently become null); insert the Photo row (failure removes the
written file); then attach tags best-effort. -/
def uploadPhoto (cfg : Cfg) (db : DB) (fs : FS) (req : UploadReq)
    (mkdirOk createOk copyOk insertOk : Bool) : OpResult :=
  match findLibrary db req.libraryId with
  | none => ⟨db, fs, 404, false⟩
  | some lib =>
    if !isValidImageType cfg req.mimeType then ⟨db, fs, 400, false⟩
    else if req.fileSize > cfg.maxFileSize then ⟨db, fs, 400, false⟩
    else
      match req.decoded with
      | none => ⟨db, fs, 400, false⟩
      | some (width, height) =>
        let filePath := joinPath lib.images req.filename
        if !mkdirOk then ⟨db, fs, 500, false⟩
        else
          let fs1 := mkdirAll fs lib.images
          if !createOk then ⟨db, fs1, 500, false⟩
          else if !copyOk then
            ⟨db, removeFile (writeFile fs1 filePath) filePath, 500, false⟩
          else
            let fs2 := writeFile fs1 filePath
            let photo : Photo := ⟨req.photoId, req.filename, req.originalName,
              filePath, req.mimeType, req.fileSize, width, height,
              ratingOf req.ratingForm, req.libraryId, req.now⟩
            if !insertOk then ⟨db, removeFile fs2 filePath, 500, false⟩
            else
              let db1 := { db with photos := db.photos ++ [photo] }
              ⟨addTags req.photoId db1 req.tagInputs, fs2, 201, false⟩

/-- Result of a handler that only touches the relational store. -/
structure DbResult where
  db : DB
  status : Nat
deriving DecidableEq, Repr

/-- UpdatePhoto (src/unnamed/part_002 lines 320-357): the binding rejects
a present rating outside [0,5]; otherwise the stored rating is replaced
by the request's rating field unconditionally (absent/null clears it). -/
def updatePhoto (db : DB) (id : Nat) (ratingReq : Option Int)
    (saveOk : Bool) : DbResult :=
  let ratingBad : Bool := match ratingReq with
    | some r => r < 0 || r > 5
    | none => false
  if ratingBad then ⟨db, 400⟩
  else
    match findPhoto db id with
    | none => ⟨db, 404⟩
    | some _ =>
      if saveOk then
        ⟨{ db with photos := db.photos.map (fun q =>
             if q.id == id then { q with rating := ratingReq } else q) }, 200⟩
      else ⟨db, 500⟩

/-- DeletePhoto (src/unnamed/part_002 lines 360-418): one transaction
deletes the PhotoTag rows, the AlbumPhoto rows, then the Photo row;
after commit, os.Remove of the file — its failure (e.g. the file is
already gone) is only logged (`warning`) and the request still
returns 200. -/
def deletePhoto (db : DB) (fs : FS) (id : Nat) (txOk : Bool) : OpResult :=
  match findPhoto db id with
  | none => ⟨db, fs, 404, false⟩
  | some photo =>
    if !txOk then ⟨db, fs, 500, false⟩
    else
      let db1 : DB :=
        { db with
          photoTags := db.photoTags.filter (fun pt => pt.photoId != id),
          albumPhotos := db.albumPhotos.filter (fun ap => ap.photoId != id),
          photos := db.photos.filter (fun p => p.id != id) }
      ⟨db1, removeFile fs photo.filePath, 200, !(fs.files.contains photo.filePath)⟩

/-- The structured inputs of a CopyPhoto request: the source photo id,
the target library, the fresh UUID and generated filename for the copy,
and the copy's upload timestamp. -/
structure CopyReq where
  sourceId : Nat
  targetLibraryId : Nat
  newPhotoId : Nat
  newFilename : String
  now : Nat
deriving DecidableEq, Repr

/-- CopyPhoto (src/unnamed/part_002 lines 452-568): load source photo and
its tags, verify target library and source file, ensure the directory,
copy the file (a mid-copy failure leaves the partial destination file),
then in one transaction insert the new Photo row and duplicate every
PhotoTag; transaction failure removes the copied file. -/
def copyPhoto (db : DB) (fs : FS) (req : CopyReq)
    (mkdirOk createOk copyOk insertOk tagCopyOk : Bool) : OpResult :=
  match findPhoto db req.sourceId with
  | none => ⟨db, fs, 404, false⟩
  | some src =>
    match findLibrary db req.targetLibraryId with
    | none => ⟨db, fs, 404, false⟩
    | some targetLib =>
      if !(fs.files.contains src.filePath) then ⟨db, fs, 404, false⟩
      else
        let newFilePath := joinPath targetLib.images req.newFilename
        if !mkdirOk then ⟨db, fs, 500, false⟩
        else
          let fs1 := mkdirAll fs targetLib.images
          if !createOk then ⟨db, fs1, 500, false⟩
          else if !copyOk then ⟨db, writeFile fs1 newFilePath, 500, false⟩
          else
            let fs2 := writeFile fs1 newFilePath
            let newPhoto : Photo := ⟨req.newPhotoId, req.newFilename,
              src.originalName, newFilePath, src.mimeType, src.fileSize,
              src.width, src.height, src.rating, req.targetLibraryId, req.now⟩
            if !insertOk then ⟨db, removeFile fs2 newFilePath, 500, false⟩
            else if !tagCopyOk then ⟨db, removeFile fs2 newFilePath, 500, false⟩
            else
              let srcTagIds := (db.photoTags.filter
                (fun pt => pt.photoId == req.sourceId)).map (fun pt => pt.tagId)
              ⟨{ db with
                   photos := db.photos ++ [newPhoto],
                   photoTags := db.photoTags
                     ++ srcTagIds.map (fun tid => (⟨req.newPhotoId, tid⟩ : PhotoTag)) },
                fs2, 201, false⟩

/-- CreateAlbum (src/handlers/albums.go lines 23-61). -/
def createAlbum (db : DB) (name description : String) (libraryId freshId : Nat)
    (insertOk : Bool) : DbResult :=
  if name.length < 1 || name.length > 100 || description.length > 500 then
    ⟨db, 400⟩
  else
    match findLibrary db libraryId with
    | none => ⟨db, 404⟩
    | some _ =>
      if insertOk then
        ⟨{ db with albums := db.albums ++ [⟨freshId, name, description, libraryId⟩] }, 201⟩
      else ⟨db, 500⟩

/-- UpdateAlbum (src/handlers/albums.go lines 129-172): name and
description only; the library id is never touched. -/
def updateAlbum (db : DB) (id : Nat) (nameReq descriptionReq : Option String)
    (saveOk : Bool) : DbResult :=
  let nameBad : Bool := match nameReq with
    | some n => n.length < 1 || n.length > 100
    | none => false
  let descriptionBad : Bool := match descriptionReq with
    | some d => d.length > 500
    | none => false
  if nameBad || descriptionBad then ⟨db, 400⟩
  else
    match findAlbum db id with
    | none => ⟨db, 404⟩
    | some _ =>
      if saveOk then
        ⟨{ db with albums := db.albums.map (fun a =>
             if a.id == id then
               { a with name := nameReq.getD a.name,
                        description := descriptionReq.getD a.description }
             else a) }, 200⟩
      else ⟨db, 500⟩

/-- DeleteAlbum (src/handlers/albums.go lines 175-218): one transaction
deletes the album's AlbumPhoto rows, then the Album row. -/
def deleteAlbum (db : DB) (id : Nat) (txOk : Bool) : DbResult :=
  match findAlbum db id with
  | none => ⟨db, 404⟩
  | some _ =>
    if !txOk then ⟨db, 500⟩
    else
      ⟨{ db with
           albumPhotos := db.albumPhotos.filter (fun ap => ap.albumId != id),
           albums := db.albums.filter (fun a => a.id != id) }, 200⟩

/-- AddPhotoToAlbum (src/handlers/albums.go lines 221-286): verify album
and photo, reject a cross-library placement with 400, reject a duplicate
pair with 409, otherwise insert the AlbumPhoto row. -/
def addPhotoToAlbum (db : DB) (albumId photoId : Nat) (order : Int)
    (insertOk : Bool) : DbResult :=
  match findAlbum db albumId with
  | none => ⟨db, 404⟩
  | some album =>
    match findPhoto db photoId with
    | none => ⟨db, 404⟩
    | some photo =>
      if photo.libraryId != album.libraryId then ⟨db, 400⟩
      else if (db.albumPhotos.find? (fun ap =>
          ap.albumId == albumId && ap.photoId == photoId)).isSome then
        ⟨db, 409⟩
      else if insertOk then
        ⟨{ db with albumPhotos := db.albumPhotos ++ [⟨albumId, photoId, order⟩] }, 201⟩
      else ⟨db, 500⟩

/-- RemovePhotoFromAlbum (src/handlers/albums.go lines 289-317): delete
the pair; zero rows affected yields 404. -/
def removePhotoFromAlbum (db : DB) (albumId photoId : Nat) : DbResult :=
  let remaining := db.albumPhotos.filter (fun ap =>
    !(ap.albumId == albumId && ap.photoId == photoId))
  if remaining.length == db.albumPhotos.length then ⟨db, 404⟩
  else ⟨{ db with albumPhotos := remaining }, 200⟩

/-- UpdatePhotoOrder (src/handlers/albums.go lines 320-360): update the
order column of the pair; zero rows affected yields 404. -/
def updatePhotoOrder (db : DB) (albumId photoId : Nat) (order : Int) : DbResult :=
  if (db.albumPhotos.find? (fun ap =>
      ap.albumId == albumId && ap.photoId == photoId)).isNone then
    ⟨db, 404⟩
  else
    ⟨{ db with albumPhotos := db.albumPhotos.map (fun ap =>
         if ap.albumId == albumId && ap.photoId == photoId then
           { ap with order := order }
         else ap) }, 200⟩

/-- GetPhotos sort-field allowlist (src/unnamed/part_002 line 222). -/
def allowedOrderFields : List String :=
  ["uploaded_at", "created_at", "rating", "filename", "file_size"]

/-- GetPhotos order_by resolution (src/unnamed/part_002 lines 216-232):
absent or unrecognized fields fall back to uploaded_at. -/
def resolveOrderField (orderByQ : Option String) : String :=
  let orderBy := orderByQ.getD "uploaded_at"
  if allowedOrderFields.contains orderBy then orderBy else "uploaded_at"

/-- GetPhotos order_dir resolution (src/unnamed/part_002 lines 217-220):
anything other than asc/desc falls back to desc. -/
def resolveOrderDir (orderDirQ : Option String) : String :=
  let orderDir := orderDirQ.getD "desc"
  if orderDir != "asc" && orderDir != "desc" then "desc" else orderDir

/-- GetPhotos limit resolution (src/unnamed/part_002 lines 199-210):
default 50; a parsed value is accepted only when 0 < v ≤ 100 (`none`
absent/empty, `some none` non-integer, `some (some v)` parsed). -/
def resolveLimit (limitQ : Option (Option Int)) : Int :=
  match limitQ with
  | some (some parsed) => if parsed > 0 && parsed ≤ 100 then parsed else 50
  | _ => 50

/-- GetPhotos page resolution (src/unnamed/part_002 lines 199-205). -/
def resolvePage (pageQ : Option (Option Int)) : Int :=
  match pageQ with
  | some (some parsed) => if parsed > 0 then parsed else 1
  | _ => 1

/-- The cross-library invariant: every AlbumPhoto row that joins an
existing photo and an existing album joins two rows of one library. -/
def crossOK (db : DB) : Prop :=
  ∀ ap ∈ db.albumPhotos, ∀ p ∈ db.photos, ∀ a ∈ db.albums,
    p.id = ap.photoId → a.id = ap.albumId → p.libraryId = a.libraryId

def photoIdsNodup (db : DB) : Prop := (db.photos.map Photo.id).Nodup

def albumIdsNodup (db : DB) : Prop := (db.albums.map Album.id).Nodup

/-- Photo ids appearing anywhere in the store; a fresh UUID collides with
none of them. -/
def usedPhotoIds (db : DB) : List Nat :=
  db.photos.map Photo.id ++ db.albumPhotos.map AlbumPhoto.photoId
    ++ db.photoTags.map PhotoTag.photoId

/-- Album ids appearing anywhere in the store. -/
def usedAlbumIds (db : DB) : List Nat :=
  db.albums.map Album.id ++ db.albumPhotos.map AlbumPhoto.albumId

/-- The inductive state invariant: the cross-library property plus
distinctness of photo and album primary keys. -/
def Inv (db : DB) : Prop := crossOK db ∧ photoIdsNodup db ∧ albumIdsNodup db

/-- The states reachable from the empty store by the handlers that touch
the libraries, albums, photos or album_photos tables.  Creations take the
UUID the store mints as an argument, constrained to be globally fresh
(modelling uuid.New); every other argument is arbitrary, including the
failure flags of the external steps. -/
inductive Reachable : DB → FS → Prop where
  | init : Reachable emptyDB emptyFS
  | stepCreateLibrary {db fs} (name description images : String)
      (freshId : Nat) (mkdirOk insertOk : Bool) :
      Reachable db fs →
      Reachable (createLibrary db fs name description images freshId mkdirOk insertOk).db
        (createLibrary db fs name description images freshId mkdirOk insertOk).fs
  | stepUpdateLibrary {db fs} (id : Nat) (nameReq descriptionReq imagesReq : Option String)
      (mkdirOk saveOk : Bool) :
      Reachable db fs →
      Reachable (updateLibrary db fs id nameReq descriptionReq imagesReq mkdirOk saveOk).db
        (updateLibrary db fs id nameReq descriptionReq imagesReq mkdirOk saveOk).fs
  | stepDeleteLibrary {db fs} (id : Nat) (txOk removeOk : Bool) :
      Reachable db fs →
      Reachable (deleteLibrary db fs id txOk removeOk).db
        (deleteLibrary db fs id txOk removeOk).fs
  | stepCreateAlbum {db fs} (name description : String) (libraryId freshId : Nat)
      (insertOk : Bool) :
      Reachable db fs → freshId ∉ usedAlbumIds db →
      Reachable (createAlbum db name description libraryId freshId insertOk).db fs
  | stepUpdateAlbum {db fs} (id : Nat) (nameReq descriptionReq : Option String)
      (saveOk : Bool) :
      Reachable db fs →
      Reachable (updateAlbum db id nameReq descriptionReq saveOk).db fs
  | stepDeleteAlbum {db fs} (id : Nat) (txOk : Bool) :
      Reachable db fs →
      Reachable (deleteAlbum db id txOk).db fs
  | stepUploadPhoto {db fs} (cfg : Cfg) (req : UploadReq)
      (mkdirOk createOk copyOk insertOk : Bool) :
      Reachable db fs → req.photoId ∉ usedPhotoIds db →
      Reachable (uploadPhoto cfg db fs req mkdirOk createOk copyOk insertOk).db
        (uploadPhoto cfg db fs req mkdirOk createOk copyOk insertOk).fs
  | stepUpdatePhoto {db fs} (id : Nat) (ratingReq : Option Int) (saveOk : Bool) :
      Reachable db fs →
      Reachable (updatePhoto db id ratingReq saveOk).db fs
  | stepDeletePhoto {db fs} (id : Nat) (txOk : Bool) :
      Reachable db fs →
      Reachable (deletePhoto db fs id txOk).db (deletePhoto db fs id txOk).fs
  | stepCopyPhoto {db fs} (req : CopyReq) (mkdirOk createOk copyOk insertOk tagCopyOk : Bool) :
      Reachable db fs → req.newPhotoId ∉ usedPhotoIds db →
      Reachable (copyPhoto db fs req mkdirOk createOk copyOk insertOk tagCopyOk).db
        (copyPhoto db fs req mkdirOk createOk copyOk insertOk tagCopyOk).fs
  | stepAddPhotoToAlbum {db fs} (albumId photoId : Nat) (order : Int) (insertOk : Bool) :
      Reachable db fs →
      Reachable (addPhotoToAlbum db albumId photoId order insertOk).db fs
  | stepRemovePhotoFromAlbum {db fs} (albumId photoId : Nat) :
      Reachable db fs →
      Reachable (removePhotoFromAlbum db albumId photoId).db fs
  | stepUpdatePhotoOrder {db fs} (albumId photoId : Nat) (order : Int) :
      Reachable db fs →
      Reachable (updatePhotoOrder db albumId photoId order).db fs

/-! Helper lemmas about the filesystem model. -/

theorem mkdirAll_files (fs : FS) (p : String) : (mkdirAll fs p).files = fs.files := by
  unfold mkdirAll
  split <;> rfl

theorem files_write_then_remove (fs : FS) (p : String)
    (h : fs.files.contains p = false) :
    (removeFile (writeFile fs p) p).files = fs.files := by
  have hnm : p ∉ fs.files := by simpa using h
  have hself : fs.files.filter (fun f => f != p) = fs.files :=
    List.filter_eq_self.mpr (fun a ha => by
      simp only [bne_iff_ne, ne_eq, decide_eq_true_eq]
      intro he
      exact hnm (he ▸ ha))
  unfold writeFile removeFile
  simp [h, hnm, List.filter_append, hself]

theorem not_mem_dirs_mkdir_remove (fs : FS) (p : String) :
    p ∉ (removeDirIfExists (mkdirAll fs p) p).dirs := by
  have hmem : (mkdirAll fs p).dirs.contains p = true := by
    unfold mkdirAll
    split
    · next hc => exact hc
    · simp
  unfold removeDirIfExists
  simp only [hmem, if_true]
  intro hp
  have h2 := (List.mem_filter.mp hp).2
  simp at h2

/-! Helper lemmas about the best-effort tag attachment. -/

theorem addTagToPhoto_photos (db : DB) (pid : Nat) (tn : String) (fid : Nat) :
    (addTagToPhoto db pid tn fid).photos = db.photos := by
  unfold addTagToPhoto
  split <;> rfl

theorem addTagToPhoto_albums (db : DB) (pid : Nat) (tn : String) (fid : Nat) :
    (addTagToPhoto db pid tn fid).albums = db.albums := by
  unfold addTagToPhoto
  split <;> rfl

theorem addTagToPhoto_albumPhotos (db : DB) (pid : Nat) (tn : String) (fid : Nat) :
    (addTagToPhoto db pid tn fid).albumPhotos = db.albumPhotos := by
  unfold addTagToPhoto
  split <;> rfl

theorem addTags_photos (pid : Nat) (l : List (String × Nat)) :
    ∀ db : DB, (addTags pid db l).photos = db.photos := by
  induction l with
  | nil => intro db; rfl
  | cons hd tl ih =>
    intro db
    obtain ⟨n, fid⟩ := hd
    unfold addTags
    split
    · exact ih db
    · rw [ih, addTagToPhoto_photos]

theorem addTags_albums (pid : Nat) (l : List (String × Nat)) :
    ∀ db : DB, (addTags pid db l).albums = db.albums := by
  induction l with
  | nil => intro db; rfl
  | cons hd tl ih =>
    intro db
    obtain ⟨n, fid⟩ := hd
    unfold addTags
    split
    · exact ih db
    · rw [ih, addTagToPhoto_albums]

theorem addTags_albumPhotos (pid : Nat) (l : List (String × Nat)) :
    ∀ db : DB, (addTags pid db l).albumPhotos = db.albumPhotos := by
  induction l with
  | nil => intro db; rfl
  | cons hd tl ih =>
    intro db
    obtain ⟨n, fid⟩ := hd
    unfold addTags
    split
    · exact ih db
    · rw [ih, addTagToPhoto_albumPhotos]

/-- A library with one photo, one album, one tag association and one
album membership, together with its storage directory on disk. -/
def dbC1 : DB :=
  { libraries := [⟨1, "Lib", "", "lib1"⟩],
    albums := [⟨30, "Alb", "", 1⟩],
    photos := [⟨10, "x.jpg", "x.jpg", "lib1/x.jpg", "image/jpeg", 100, 4, 4, none, 1, 0⟩],
    tags := [⟨20, "t", ""⟩],
    photoTags := [⟨10, 20⟩],
    albumPhotos := [⟨30, 10, 0⟩] }

def fsC1 : FS := ⟨["lib1"], ["lib1/x.jpg"]⟩

/-- C1: a fully successful DeleteLibrary on a library with one photo, one
album, a photo-tag association and an album membership removes the Photo,
Album and Library rows and the storage directory, but leaves the PhotoTag
and AlbumPhoto rows referencing the deleted entities in place: the
transaction only deletes photos, albums and the library row, and the
schema declares none of the cascading constraints the code's comment
relies on.  This refutes the zero-remaining-rows part of the claim. -/
theorem C1_delete_library_leaves_association_rows :
    (deleteLibrary dbC1 fsC1 1 true true).status = 200 ∧
    (deleteLibrary dbC1 fsC1 1 true true).db.photos = [] ∧
    (deleteLibrary dbC1 fsC1 1 true true).db.albums = [] ∧
    (deleteLibrary dbC1 fsC1 1 true true).db.libraries = [] ∧
    (deleteLibrary dbC1 fsC1 1 true true).fs.dirs = [] ∧
    (deleteLibrary dbC1 fsC1 1 true true).db.photoTags = [⟨10, 20⟩] ∧
    (deleteLibrary dbC1 fsC1 1 true true).db.albumPhotos = [⟨30, 10, 0⟩] := by
  decide

/-- C6: when the DeleteLibrary transaction commits but the recursive
directory removal fails, the handler still answers 200 with the
manual-cleanup warning embedded, leaving the filesystem as it was. -/
theorem C6_delete_library_warns_on_rm_failure (db : DB) (fs : FS) (id : Nat)
    (lib : Library) (h : findLibrary db id = some lib) :
    (deleteLibrary db fs id true false).status = 200 ∧
    (deleteLibrary db fs id true false).warning = true ∧
    (deleteLibrary db fs id true false).fs = fs := by
  unfold deleteLibrary
  rw [h]
  simp

/-- Witness for C6 at a concrete one-library store. -/
theorem C6_delete_library_warns_on_rm_failure_witness :
    (deleteLibrary dbC1 fsC1 1 true false).status = 200 ∧
    (deleteLibrary dbC1 fsC1 1 true false).warning = true ∧
    (deleteLibrary dbC1 fsC1 1 true false).fs = fsC1 :=
  C6_delete_library_warns_on_rm_failure dbC1 fsC1 1 ⟨1, "Lib", "", "lib1"⟩ (by decide)

/-- C7: deleting an existing photo whose file is already gone from disk
still returns 200 — the os.Remove failure is only logged (`warning`) —
and afterwards no Photo, PhotoTag or AlbumPhoto row mentions the photo. -/
theorem C7_delete_photo_tolerates_missing_file (db : DB) (fs : FS) (id : Nat)
    (photo : Photo) (h : findPhoto db id = some photo)
    (hfile : fs.files.contains photo.filePath = false) :
    (deletePhoto db fs id true).status = 200 ∧
    (deletePhoto db fs id true).warning = true ∧
    (∀ p ∈ (deletePhoto db fs id true).db.photos, p.id ≠ id) ∧
    (∀ pt ∈ (deletePhoto db fs id true).db.photoTags, pt.photoId ≠ id) ∧
    (∀ ap ∈ (deletePhoto db fs id true).db.albumPhotos, ap.photoId ≠ id) := by
  unfold deletePhoto
  rw [h]
  refine ⟨rfl, ?_, ?_, ?_, ?_⟩
  · show (!(fs.files.contains photo.filePath)) = true
    rw [hfile]
    rfl
  · intro p hp
    have h2 := (List.mem_filter.mp hp).2
    simpa using h2
  · intro pt hpt
    have h2 := (List.mem_filter.mp hpt).2
    simpa using h2
  · intro ap hap
    have h2 := (List.mem_filter.mp hap).2
    simpa using h2

/-- Witness for C7: the photo's file is absent from the filesystem. -/
theorem C7_delete_photo_tolerates_missing_file_witness :
    (deletePhoto dbC1 ⟨["lib1"], []⟩ 10 true).status = 200 ∧
    (deletePhoto dbC1 ⟨["lib1"], []⟩ 10 true).warning = true ∧
    (∀ p ∈ (deletePhoto dbC1 ⟨["lib1"], []⟩ 10 true).db.photos, p.id ≠ 10) ∧
    (∀ pt ∈ (deletePhoto dbC1 ⟨["lib1"], []⟩ 10 true).db.photoTags, pt.photoId ≠ 10) ∧
    (∀ ap ∈ (deletePhoto dbC1 ⟨["lib1"], []⟩ 10 true).db.albumPhotos, ap.photoId ≠ 10) :=
  C7_delete_photo_tolerates_missing_file dbC1 ⟨["lib1"], []⟩ 10
    ⟨10, "x.jpg", "x.jpg", "lib1/x.jpg", "image/jpeg", 100, 4, 4, none, 1, 0⟩
    (by decide) (by decide)

/-- C9: photo-list parameter resolution is lenient and bounded — an
order_by outside the allowlist falls back to uploaded_at, an order_dir
other than asc/desc falls back to desc, the absent defaults are
uploaded_at/desc, and the effective limit defaults to 50 and always lies
in [1, 100]. -/
theorem C9_listing_leniency_and_bounded_page :
    (∀ s, s ∉ allowedOrderFields → resolveOrderField (some s) = "uploaded_at") ∧
    (∀ s, s ≠ "asc" → s ≠ "desc" → resolveOrderDir (some s) = "desc") ∧
    resolveOrderField none = "uploaded_at" ∧
    resolveOrderDir none = "desc" ∧
    (∀ l, 1 ≤ resolveLimit l ∧ resolveLimit l ≤ 100) ∧
    resolveLimit none = 50 := by
  refine ⟨?_, ?_, rfl, rfl, ?_, rfl⟩
  · intro s hs
    simp only [resolveOrderField, Option.getD_some]
    split
    · next hmem =>
        exact absurd (List.mem_of_elem_eq_true hmem) hs
    · rfl
  · intro s h1 h2
    simp [resolveOrderDir, h1, h2]
  · intro l
    rcases l with _ | (_ | v)
    · exact ⟨by decide, by decide⟩
    · exact ⟨by decide, by decide⟩
    · simp only [resolveLimit]
      constructor
      · split
        · next hcond =>
            simp only [Bool.and_eq_true, decide_eq_true_eq] at hcond
            omega
        · omega
      · split
        · next hcond =>
            simp only [Bool.and_eq_true, decide_eq_true_eq] at hcond
            omega
        · omega

/-- Witness for C9: concrete evaluations of the resolution functions. -/
theorem C9_listing_leniency_and_bounded_page_witness :
    resolveOrderField (some "bogus") = "uploaded_at" ∧
    resolveOrderDir (some "sideways") = "desc" ∧
    1 ≤ resolveLimit (some (some 1000)) ∧ resolveLimit (some (some 1000)) ≤ 100 :=
  ⟨C9_listing_leniency_and_bounded_page.1 "bogus" (by decide),
   C9_listing_leniency_and_bounded_page.2.1 "sideways" (by decide) (by decide),
   (C9_listing_leniency_and_bounded_page.2.2.2.2.1 (some (some 1000))).1,
   (C9_listing_leniency_and_bounded_page.2.2.2.2.1 (some (some 1000))).2⟩

/-- C10: a valid UpdatePhoto on an existing photo replaces the stored
rating with the request's rating field unconditionally — an absent/null
rating clears it to null — and changes nothing else: the row keeps every
other field, and every other row and table is untouched. -/
theorem C10_update_photo_overwrites_rating (db : DB) (id : Nat)
    (ratingReq : Option Int) (photo : Photo)
    (hok : ratingReq = none ∨ ∃ r, ratingReq = some r ∧ 0 ≤ r ∧ r ≤ 5)
    (hfind : findPhoto db id = some photo) :
    updatePhoto db id ratingReq true =
      ⟨{ db with photos := db.photos.map (fun q =>
           if q.id == id then { q with rating := ratingReq } else q) }, 200⟩ := by
  rcases hok with h | ⟨r, hr, h0, h5⟩
  · subst h
    simp [updatePhoto, hfind]
  · subst hr
    have hn1 : ¬ (r < 0) := by omega
    have hn2 : ¬ (5 < r) := by omega
    simp [updatePhoto, hfind, hn1, hn2]

/-- Witness for C10: setting rating 3 on the concrete store's photo. -/
theorem C10_update_photo_overwrites_rating_witness :
    updatePhoto dbC1 10 (some 3) true =
      ⟨{ dbC1 with photos := dbC1.photos.map (fun q =>
           if q.id == 10 then { q with rating := some 3 } else q) }, 200⟩ :=
  C10_update_photo_overwrites_rating dbC1 10 (some 3)
    ⟨10, "x.jpg", "x.jpg", "lib1/x.jpg", "image/jpeg", 100, 4, 4, none, 1, 0⟩
    (Or.inr ⟨3, rfl, by decide, by decide⟩) (by decide)

/-- C2: upload atomicity — when the library exists and the MIME type and
size checks pass, a failed dimension decode aborts with 400 before any
file is written or any row inserted, whatever the later step flags; and
when the decode succeeds but the Photo-row insert fails after the file
write, the written file is removed again, leaving both stores exactly as
they were. -/
theorem C2_upload_atomicity (cfg : Cfg) (db : DB) (fs : FS) (req : UploadReq)
    (lib : Library) (hlib : findLibrary db req.libraryId = some lib)
    (hmime : isValidImageType cfg req.mimeType = true)
    (hsize : req.fileSize ≤ cfg.maxFileSize) :
    (req.decoded = none → ∀ mkdirOk createOk copyOk insertOk,
      uploadPhoto cfg db fs req mkdirOk createOk copyOk insertOk = ⟨db, fs, 400, false⟩) ∧
    (∀ w h, req.decoded = some (w, h) →
      fs.files.contains (joinPath lib.images req.filename) = false →
      (uploadPhoto cfg db fs req true true true false).db = db ∧
      (uploadPhoto cfg db fs req true true true false).status = 500 ∧
      (uploadPhoto cfg db fs req true true true false).fs.files = fs.files) := by
  have hsz : ¬ (req.fileSize > cfg.maxFileSize) := by omega
  constructor
  · intro hdec mkdirOk createOk copyOk insertOk
    unfold uploadPhoto
    rw [hlib, hdec]
    simp [hmime, hsz]
  · intro w h hdec hnf
    have hnf1 : (mkdirAll fs lib.images).files.contains (joinPath lib.images req.filename) = false := by
      rw [mkdirAll_files]
      exact hnf
    unfold uploadPhoto
    rw [hlib, hdec]
    simp only [hmime, Bool.not_true, Bool.false_eq_true, if_false, hsz, if_neg,
      Bool.not_false, if_true, not_false_eq_true]
    refine ⟨trivial, trivial, ?_⟩
    show (removeFile (writeFile (mkdirAll fs lib.images) (joinPath lib.images req.filename))
      (joinPath lib.images req.filename)).files = fs.files
    rw [files_write_then_remove _ _ hnf1, mkdirAll_files]

/-- Witness for C2: a concrete store exercising both conjuncts — an
invalid image aborts cleanly, and a forced insert failure removes the
written file. -/
theorem C2_upload_atomicity_witness :
    (uploadPhoto defaultCfg dbC1 fsC1
        ⟨1, "y.jpg", "image/jpeg", 10, none, none, [], "gen.jpg", 11, 5⟩
        true true true true = ⟨dbC1, fsC1, 400, false⟩) ∧
    ((uploadPhoto defaultCfg dbC1 fsC1
        ⟨1, "y.jpg", "image/jpeg", 10, some (2, 3), none, [], "gen.jpg", 11, 5⟩
        true true true false).db = dbC1 ∧
      (uploadPhoto defaultCfg dbC1 fsC1
        ⟨1, "y.jpg", "image/jpeg", 10, some (2, 3), none, [], "gen.jpg", 11, 5⟩
        true true true false).status = 500 ∧
      (uploadPhoto defaultCfg dbC1 fsC1
        ⟨1, "y.jpg", "image/jpeg", 10, some (2, 3), none, [], "gen.jpg", 11, 5⟩
        true true true false).fs.files = fsC1.files) :=
  ⟨(C2_upload_atomicity defaultCfg dbC1 fsC1
      ⟨1, "y.jpg", "image/jpeg", 10, none, none, [], "gen.jpg", 11, 5⟩
      ⟨1, "Lib", "", "lib1"⟩ (by decide) (by decide) (by decide)).1 rfl true true true false,
   (C2_upload_atomicity defaultCfg dbC1 fsC1
      ⟨1, "y.jpg", "image/jpeg", 10, some (2, 3), none, [], "gen.jpg", 11, 5⟩
      ⟨1, "Lib", "", "lib1"⟩ (by decide) (by decide) (by decide)).2 2 3 rfl (by decide)⟩

/-- C3: creating a library whose name or storage path duplicates an
existing one fails with 409 touching neither store; and when the row
insert fails after the directory was created, the fresh directory is
removed again and the store is unchanged. -/
theorem C3_create_library_conflict_and_compensation (db : DB) (fs : FS)
    (name description images : String) (freshId : Nat)
    (hn1 : 1 ≤ name.length) (hn2 : name.length ≤ 100)
    (hd : description.length ≤ 500)
    (hi1 : 1 ≤ images.length) (hi2 : images.length ≤ 500)
    (hvalid : isValidPath images = true) :
    ((∃ l ∈ db.libraries, l.name = name) ∨ (∃ l ∈ db.libraries, l.images = images) →
      ∀ mkdirOk insertOk,
        createLibrary db fs name description images freshId mkdirOk insertOk =
          ⟨db, fs, 409, false⟩) ∧
    ((∀ l ∈ db.libraries, l.name ≠ name ∧ l.images ≠ images) →
      (createLibrary db fs name description images freshId true false).db = db ∧
      (createLibrary db fs name description images freshId true false).status = 500 ∧
      images ∉ (createLibrary db fs name description images freshId true false).fs.dirs) := by
  have f1 : ¬ (name.length < 1) := by omega
  have f2 : ¬ (name.length > 100) := by omega
  have f3 : ¬ (description.length > 500) := by omega
  have f4 : ¬ (images.length < 1) := by omega
  have f5 : ¬ (images.length > 500) := by omega
  constructor
  · intro hdup mkdirOk insertOk
    by_cases hn : (db.libraries.find? (fun l => l.name == name)).isSome = true
    · unfold createLibrary
      simp [f1, f2, f3, f4, f5, hvalid, hn]
    · have himg : (db.libraries.find? (fun l => l.images == images)).isSome = true := by
        rcases hdup with ⟨l, hl, he⟩ | ⟨l, hl, he⟩
        · exact absurd (List.find?_isSome.mpr ⟨l, hl, by simp [he]⟩) hn
        · exact List.find?_isSome.mpr ⟨l, hl, by simp [he]⟩
      unfold createLibrary
      simp [f1, f2, f3, f4, f5, hvalid, hn, himg]
  · intro hall
    have hn : (db.libraries.find? (fun l => l.name == name)) = none := by
      rw [List.find?_eq_none]
      intro l hl
      simp [(hall l hl).1]
    have hi : (db.libraries.find? (fun l => l.images == images)) = none := by
      rw [List.find?_eq_none]
      intro l hl
      simp [(hall l hl).2]
    unfold createLibrary
    simp only [f1, f2, f3, f4, f5, hvalid, hn, hi, Bool.or_self,
      Bool.false_or, Bool.not_true, Bool.false_eq_true, if_false, Option.isSome_none,
      Bool.not_false, if_true, decide_eq_true_eq]
    refine ⟨trivial, trivial, ?_⟩
    show images ∉ (removeDirIfExists (mkdirAll fs images) images).dirs
    exact not_mem_dirs_mkdir_remove fs images

/-- Witness for C3: duplicating the concrete library's name yields 409,
and a forced insert failure on a fresh library removes its directory. -/
theorem C3_create_library_conflict_and_compensation_witness :
    (createLibrary dbC1 fsC1 "Lib" "other" "lib9" 7 true true = ⟨dbC1, fsC1, 409, false⟩) ∧
    ((createLibrary dbC1 fsC1 "Fresh" "" "lib9" 7 true false).db = dbC1 ∧
      (createLibrary dbC1 fsC1 "Fresh" "" "lib9" 7 true false).status = 500 ∧
      "lib9" ∉ (createLibrary dbC1 fsC1 "Fresh" "" "lib9" 7 true false).fs.dirs) :=
  ⟨(C3_create_library_conflict_and_compensation dbC1 fsC1 "Lib" "other" "lib9" 7
      (by decide) (by decide) (by decide) (by decide) (by decide) (by decide)).1
      (Or.inl ⟨⟨1, "Lib", "", "lib1"⟩, by decide, rfl⟩) true true,
   (C3_create_library_conflict_and_compensation dbC1 fsC1 "Fresh" "" "lib9" 7
      (by decide) (by decide) (by decide) (by decide) (by decide) (by decide)).2
      (by decide)⟩

theorem writeFile_files_of_new (fs : FS) (p : String)
    (h : fs.files.contains p = false) :
    (writeFile fs p).files = fs.files ++ [p] := by
  have hnm : p ∉ fs.files := by simpa using h
  unfold writeFile
  simp [h, hnm]

/-- C5: a successful CopyPhoto appends exactly one new Photo row carrying
the fresh id and generated filename (different from the source's, as the
hypotheses record of the UUID and name generators) with every other
metadatum duplicated from the source, duplicates each of the source's
PhotoTag rows onto the new id, and adds exactly the copied file; the
source row and file survive untouched.  When the transaction fails after
the copy, the copied file is removed and both stores are as before. -/
theorem C5_copy_photo_independence (db : DB) (fs : FS) (req : CopyReq)
    (src : Photo) (tlib : Library)
    (hsrc : findPhoto db req.sourceId = some src)
    (htlib : findLibrary db req.targetLibraryId = some tlib)
    (hfile : fs.files.contains src.filePath = true)
    (hid : req.newPhotoId ≠ src.id)
    (hfn : req.newFilename ≠ src.filename)
    (hnew : fs.files.contains (joinPath tlib.images req.newFilename) = false) :
    ((copyPhoto db fs req true true true true true).status = 201 ∧
      (copyPhoto db fs req true true true true true).db.photos =
        db.photos ++ [⟨req.newPhotoId, req.newFilename, src.originalName,
          joinPath tlib.images req.newFilename, src.mimeType, src.fileSize,
          src.width, src.height, src.rating, req.targetLibraryId, req.now⟩] ∧
      (copyPhoto db fs req true true true true true).db.photoTags =
        db.photoTags ++ (db.photoTags.filter (fun pt => pt.photoId == req.sourceId)).map
          (fun pt => (⟨req.newPhotoId, pt.tagId⟩ : PhotoTag)) ∧
      (copyPhoto db fs req true true true true true).fs.files =
        fs.files ++ [joinPath tlib.images req.newFilename] ∧
      req.newPhotoId ≠ src.id ∧ req.newFilename ≠ src.filename ∧
      src ∈ (copyPhoto db fs req true true true true true).db.photos ∧
      src.filePath ∈ (copyPhoto db fs req true true true true true).fs.files) ∧
    ((copyPhoto db fs req true true true false true).db = db ∧
      (copyPhoto db fs req true true true false true).status = 500 ∧
      (copyPhoto db fs req true true true false true).fs.files = fs.files) := by
  have hnew1 : (mkdirAll fs tlib.images).files.contains
      (joinPath tlib.images req.newFilename) = false := by
    rw [mkdirAll_files]
    exact hnew
  constructor
  · unfold copyPhoto
    rw [hsrc, htlib]
    simp only [hfile, Bool.not_true, Bool.false_eq_true, if_false, Bool.not_false, if_true]
    refine ⟨trivial, trivial, ?_, ?_, hid, hfn, ?_, ?_⟩
    · show db.photoTags ++ ((db.photoTags.filter (fun pt => pt.photoId == req.sourceId)).map
          (fun pt => pt.tagId)).map (fun tid => (⟨req.newPhotoId, tid⟩ : PhotoTag)) =
        db.photoTags ++ (db.photoTags.filter (fun pt => pt.photoId == req.sourceId)).map
          (fun pt => (⟨req.newPhotoId, pt.tagId⟩ : PhotoTag))
      rw [List.map_map]
      rfl
    · show (writeFile (mkdirAll fs tlib.images) (joinPath tlib.images req.newFilename)).files =
        fs.files ++ [joinPath tlib.images req.newFilename]
      rw [writeFile_files_of_new _ _ hnew1, mkdirAll_files]
    · exact List.mem_append_left _ (List.mem_of_find?_eq_some hsrc)
    · show src.filePath ∈ (writeFile (mkdirAll fs tlib.images)
        (joinPath tlib.images req.newFilename)).files
      rw [writeFile_files_of_new _ _ hnew1, mkdirAll_files]
      exact List.mem_append_left _ (by simpa using hfile)
  · unfold copyPhoto
    rw [hsrc, htlib]
    simp only [hfile, Bool.not_true, Bool.false_eq_true, if_false, Bool.not_false, if_true]
    refine ⟨trivial, trivial, ?_⟩
    show (removeFile (writeFile (mkdirAll fs tlib.images) (joinPath tlib.images req.newFilename))
        (joinPath tlib.images req.newFilename)).files = fs.files
    rw [files_write_then_remove _ _ hnew1, mkdirAll_files]

/-- Witness for C5: copying the concrete store's photo 10 (tagged 20)
into its own library under a fresh name and id. -/
theorem C5_copy_photo_independence_witness :
    ((copyPhoto dbC1 fsC1 ⟨10, 1, 99, "copy.jpg", 50⟩ true true true true true).db.photos =
      dbC1.photos ++ [⟨99, "copy.jpg", "x.jpg", "lib1/copy.jpg", "image/jpeg",
        100, 4, 4, none, 1, 50⟩] ∧
      (copyPhoto dbC1 fsC1 ⟨10, 1, 99, "copy.jpg", 50⟩ true true true true true).db.photoTags =
        dbC1.photoTags ++ [⟨99, 20⟩]) ∧
    ((copyPhoto dbC1 fsC1 ⟨10, 1, 99, "copy.jpg", 50⟩ true true true false true).db = dbC1 ∧
      (copyPhoto dbC1 fsC1 ⟨10, 1, 99, "copy.jpg", 50⟩ true true true false true).fs.files =
        fsC1.files) := by
  have h := C5_copy_photo_independence dbC1 fsC1 ⟨10, 1, 99, "copy.jpg", 50⟩
    ⟨10, "x.jpg", "x.jpg", "lib1/x.jpg", "image/jpeg", 100, 4, 4, none, 1, 0⟩
    ⟨1, "Lib", "", "lib1"⟩ (by decide) (by decide) (by decide) (by decide) (by decide)
    (by decide)
  exact ⟨⟨h.1.2.1, by rw [h.1.2.2.1]; rfl⟩, h.2.1, h.2.2.2⟩

/-- Does the upload form carry a rating value that is present but either
out of range or non-integer? -/
def badRatingForm (f : Option (Option Int)) : Prop :=
  match f with
  | some (some r) => r < 0 ∨ 5 < r
  | some none => True
  | none => False

/-- C8: an UpdatePhoto request whose rating lies outside [0,5] is
rejected with 400 before anything is stored (the whole store is
unchanged), while an UploadPhoto request whose rating form value is
out of range or non-integer still succeeds with 201 and stores a null
rating. -/
theorem C8_rating_bounds :
    (∀ (db : DB) (id : Nat) (r : Int) (saveOk : Bool), r < 0 ∨ 5 < r →
      updatePhoto db id (some r) saveOk = ⟨db, 400⟩) ∧
    (∀ (cfg : Cfg) (db : DB) (fs : FS) (req : UploadReq) (lib : Library) (w h : Nat),
      findLibrary db req.libraryId = some lib →
      isValidImageType cfg req.mimeType = true →
      req.fileSize ≤ cfg.maxFileSize →
      req.decoded = some (w, h) →
      badRatingForm req.ratingForm →
      (uploadPhoto cfg db fs req true true true true).status = 201 ∧
      (uploadPhoto cfg db fs req true true true true).db.photos =
        db.photos ++ [⟨req.photoId, req.filename, req.originalName,
          joinPath lib.images req.filename, req.mimeType, req.fileSize, w, h,
          none, req.libraryId, req.now⟩]) := by
  constructor
  · intro db id r saveOk hr
    unfold updatePhoto
    have hc : (decide (r < 0) || decide (r > 5)) = true := by
      rcases hr with h | h <;> simp [h]
    simp [hc]
  · intro cfg db fs req lib w h hlib hmime hsize hdec hbad
    have hsz : ¬ (req.fileSize > cfg.maxFileSize) := by omega
    have hrat : ratingOf req.ratingForm = none := by
      rcases hform : req.ratingForm with _ | (_ | r)
      · rw [hform] at hbad
        simp [badRatingForm] at hbad
      · rfl
      · rw [hform] at hbad
        simp only [badRatingForm] at hbad
        have hc : (decide (0 ≤ r) && decide (r ≤ 5)) = false := by
          rcases hbad with hb | hb <;> simp <;> omega
        unfold ratingOf
        simp [hc]
    unfold uploadPhoto
    rw [hlib, hdec]
    simp only [hmime, Bool.not_true, Bool.false_eq_true, if_false, hsz, if_neg,
      Bool.not_false, if_true, not_false_eq_true]
    refine ⟨trivial, ?_⟩
    show (addTags req.photoId { db with photos := db.photos ++
        [⟨req.photoId, req.filename, req.originalName, joinPath lib.images req.filename,
          req.mimeType, req.fileSize, w, h, ratingOf req.ratingForm, req.libraryId,
          req.now⟩] } req.tagInputs).photos = _
    rw [addTags_photos, hrat]

/-- Witness for C8: rating 9 is rejected on update and silently nulled on
upload. -/
theorem C8_rating_bounds_witness :
    updatePhoto dbC1 10 (some 9) true = ⟨dbC1, 400⟩ ∧
    (uploadPhoto defaultCfg dbC1 fsC1
        ⟨1, "y.jpg", "image/jpeg", 10, some (2, 3), some (some 9), [], "gen.jpg", 11, 5⟩
        true true true true).status = 201 ∧
    (uploadPhoto defaultCfg dbC1 fsC1
        ⟨1, "y.jpg", "image/jpeg", 10, some (2, 3), some (some 9), [], "gen.jpg", 11, 5⟩
        true true true true).db.photos =
      dbC1.photos ++ [⟨11, "gen.jpg", "y.jpg", "lib1/gen.jpg", "image/jpeg",
        10, 2, 3, none, 1, 5⟩] := by
  have h2 := C8_rating_bounds.2 defaultCfg dbC1 fsC1
    ⟨1, "y.jpg", "image/jpeg", 10, some (2, 3), some (some 9), [], "gen.jpg", 11, 5⟩
    ⟨1, "Lib", "", "lib1"⟩ 2 3 (by decide) (by decide) (by decide) rfl
    (Or.inr (by decide))
  exact ⟨C8_rating_bounds.1 dbC1 10 9 true (Or.inr (by decide)), h2.1, h2.2⟩

/-! Preservation lemmas for the cross-library invariant. -/

theorem inv_of_eq {db db' : DB} (hp : db'.photos = db.photos)
    (ha : db'.albums = db.albums) (hap : db'.albumPhotos = db.albumPhotos)
    (h : Inv db) : Inv db' := by
  unfold Inv crossOK photoIdsNodup albumIdsNodup at h ⊢
  rw [hp, ha, hap]
  exact h

theorem inv_shrink {db db' : DB}
    (hp : db'.photos.Sublist db.photos)
    (ha : db'.albums.Sublist db.albums)
    (hap : ∀ x ∈ db'.albumPhotos, x ∈ db.albumPhotos)
    (h : Inv db) : Inv db' := by
  obtain ⟨hc, h1, h2⟩ := h
  refine ⟨fun ap hap' p hp' a ha' hpe hae =>
    hc ap (hap ap hap') p (hp.subset hp') a (ha.subset ha') hpe hae, ?_, ?_⟩
  · exact List.Nodup.sublist (hp.map Photo.id) h1
  · exact List.Nodup.sublist (ha.map Album.id) h2

theorem inv_map_photos {db : DB} (f : Photo → Photo)
    (hid : ∀ p, (f p).id = p.id) (hlib : ∀ p, (f p).libraryId = p.libraryId)
    (h : Inv db) : Inv { db with photos := db.photos.map f } := by
  obtain ⟨hc, h1, h2⟩ := h
  refine ⟨?_, ?_, h2⟩
  · intro ap hap p hp a ha hpe hae
    obtain ⟨q, hq, rfl⟩ := List.mem_map.mp hp
    rw [hlib]
    exact hc ap hap q hq a ha (by rw [← hid q]; exact hpe) hae
  · show ((db.photos.map f).map Photo.id).Nodup
    rw [List.map_map]
    have hfe : List.map (Photo.id ∘ f) db.photos = List.map Photo.id db.photos :=
      List.map_congr_left (fun p _ => hid p)
    rw [hfe]
    exact h1

theorem inv_map_albums {db : DB} (f : Album → Album)
    (hid : ∀ a, (f a).id = a.id) (hlib : ∀ a, (f a).libraryId = a.libraryId)
    (h : Inv db) : Inv { db with albums := db.albums.map f } := by
  obtain ⟨hc, h1, h2⟩ := h
  refine ⟨?_, h1, ?_⟩
  · intro ap hap p hp a ha hpe hae
    obtain ⟨b, hb, rfl⟩ := List.mem_map.mp ha
    rw [hlib]
    exact hc ap hap p hp b hb hpe (by rw [← hid b]; exact hae)
  · show ((db.albums.map f).map Album.id).Nodup
    rw [List.map_map]
    have hfe : List.map (Album.id ∘ f) db.albums = List.map Album.id db.albums :=
      List.map_congr_left (fun a _ => hid a)
    rw [hfe]
    exact h2

theorem inv_map_albumPhotos {db : DB} (f : AlbumPhoto → AlbumPhoto)
    (hai : ∀ x, (f x).albumId = x.albumId) (hpi : ∀ x, (f x).photoId = x.photoId)
    (h : Inv db) : Inv { db with albumPhotos := db.albumPhotos.map f } := by
  obtain ⟨hc, h1, h2⟩ := h
  refine ⟨?_, h1, h2⟩
  intro ap hap p hp a ha hpe hae
  obtain ⟨x, hx, rfl⟩ := List.mem_map.mp hap
  exact hc x hx p hp a ha (by rw [← hpi x]; exact hpe) (by rw [← hai x]; exact hae)

theorem inv_append_album {db : DB} (a : Album)
    (hfresh : a.id ∉ usedAlbumIds db) (h : Inv db) :
    Inv { db with albums := db.albums ++ [a] } := by
  obtain ⟨hc, h1, h2⟩ := h
  refine ⟨?_, h1, ?_⟩
  · intro ap hap p hp b hb hpe hae
    rcases List.mem_append.mp hb with hb | hb
    · exact hc ap hap p hp b hb hpe hae
    · have hba : b = a := by simpa using hb
      subst hba
      exfalso
      apply hfresh
      unfold usedAlbumIds
      exact List.mem_append_right _ (hae ▸ List.mem_map_of_mem AlbumPhoto.albumId hap)
  · show ((db.albums ++ [a]).map Album.id).Nodup
    rw [List.map_append]
    have hnotin : a.id ∉ db.albums.map Album.id := fun hmem =>
      hfresh (by unfold usedAlbumIds; exact List.mem_append_left _ hmem)
    have h2n : (db.albums.map Album.id).Nodup := h2
    simp [List.nodup_append, h2n, hnotin]

theorem inv_append_photo {db : DB} (p : Photo)
    (hfresh : p.id ∉ usedPhotoIds db) (h : Inv db) :
    Inv { db with photos := db.photos ++ [p] } := by
  obtain ⟨hc, h1, h2⟩ := h
  refine ⟨?_, ?_, h2⟩
  · intro ap hap q hq a ha hpe hae
    rcases List.mem_append.mp hq with hq | hq
    · exact hc ap hap q hq a ha hpe hae
    · have hqp : q = p := by simpa using hq
      subst hqp
      exfalso
      apply hfresh
      unfold usedPhotoIds
      refine List.mem_append_left _ (List.mem_append_right _ ?_)
      rw [hpe]
      exact List.mem_map_of_mem AlbumPhoto.photoId hap
  · show ((db.photos ++ [p]).map Photo.id).Nodup
    rw [List.map_append]
    have hnotin : p.id ∉ db.photos.map Photo.id := fun hmem =>
      hfresh (by unfold usedPhotoIds; exact List.mem_append_left _ (List.mem_append_left _ hmem))
    have h1n : (db.photos.map Photo.id).Nodup := h1
    simp [List.nodup_append, h1n, hnotin]

theorem inv_append_albumPhoto {db : DB} (albumId photoId : Nat) (ord : Int)
    (album : Album) (photo : Photo)
    (hfa : findAlbum db albumId = some album)
    (hfp : findPhoto db photoId = some photo)
    (heq : photo.libraryId = album.libraryId)
    (h : Inv db) :
    Inv { db with albumPhotos := db.albumPhotos ++ [⟨albumId, photoId, ord⟩] } := by
  obtain ⟨hc, h1, h2⟩ := h
  have hpm : photo ∈ db.photos := List.mem_of_find?_eq_some hfp
  have ham : album ∈ db.albums := List.mem_of_find?_eq_some hfa
  have hpid : photo.id = photoId := by
    have := List.find?_some hfp
    simpa using this
  have haid : album.id = albumId := by
    have := List.find?_some hfa
    simpa using this
  refine ⟨?_, h1, h2⟩
  intro ap hap p hp a ha hpe hae
  rcases List.mem_append.mp hap with hap | hap
  · exact hc ap hap p hp a ha hpe hae
  · have hx : ap = ⟨albumId, photoId, ord⟩ := by simpa using hap
    subst hx
    have hp2 : p = photo := by
      apply List.inj_on_of_nodup_map h1 hp hpm
      rw [hpid, hpe]
    have ha2 : a = album := by
      apply List.inj_on_of_nodup_map h2 ha ham
      rw [haid, hae]
    rw [hp2, ha2]
    exact heq

theorem inv_createLibrary (db : DB) (fs : FS) (name description images : String)
    (freshId : Nat) (mkdirOk insertOk : Bool) (h : Inv db) :
    Inv (createLibrary db fs name description images freshId mkdirOk insertOk).db := by
  unfold createLibrary
  repeat' split
  all_goals exact inv_of_eq rfl rfl rfl h

set_option maxHeartbeats 1000000 in
theorem inv_updateLibrary (db : DB) (fs : FS) (id : Nat)
    (nameReq descriptionReq imagesReq : Option String) (mkdirOk saveOk : Bool)
    (h : Inv db) :
    Inv (updateLibrary db fs id nameReq descriptionReq imagesReq mkdirOk saveOk).db := by
  unfold updateLibrary
  dsimp only
  repeat' split
  all_goals exact inv_of_eq rfl rfl rfl h

theorem inv_deleteLibrary (db : DB) (fs : FS) (id : Nat) (txOk removeOk : Bool)
    (h : Inv db) : Inv (deleteLibrary db fs id txOk removeOk).db := by
  unfold deleteLibrary
  repeat' split
  all_goals first
    | exact inv_of_eq rfl rfl rfl h
    | exact @inv_shrink db _ (List.filter_sublist _) (List.filter_sublist _)
        (fun x hx => hx) h

theorem inv_createAlbum (db : DB) (name description : String)
    (libraryId freshId : Nat) (insertOk : Bool)
    (hfresh : freshId ∉ usedAlbumIds db) (h : Inv db) :
    Inv (createAlbum db name description libraryId freshId insertOk).db := by
  unfold createAlbum
  repeat' split
  all_goals first
    | exact inv_of_eq rfl rfl rfl h
    | exact inv_append_album ⟨freshId, name, description, libraryId⟩ hfresh h

theorem inv_updateAlbum (db : DB) (id : Nat) (nameReq descriptionReq : Option String)
    (saveOk : Bool) (h : Inv db) :
    Inv (updateAlbum db id nameReq descriptionReq saveOk).db := by
  unfold updateAlbum
  dsimp only
  repeat' split
  all_goals first
    | exact inv_of_eq rfl rfl rfl h
    | exact inv_map_albums _ (fun a => by split <;> rfl)
        (fun a => by split <;> rfl) h

theorem inv_deleteAlbum (db : DB) (id : Nat) (txOk : Bool) (h : Inv db) :
    Inv (deleteAlbum db id txOk).db := by
  unfold deleteAlbum
  repeat' split
  all_goals first
    | exact inv_of_eq rfl rfl rfl h
    | exact @inv_shrink db _ (List.Sublist.refl _) (List.filter_sublist _)
        (fun x hx => List.mem_of_mem_filter hx) h

theorem inv_uploadPhoto (cfg : Cfg) (db : DB) (fs : FS) (req : UploadReq)
    (mkdirOk createOk copyOk insertOk : Bool)
    (hfresh : req.photoId ∉ usedPhotoIds db) (h : Inv db) :
    Inv (uploadPhoto cfg db fs req mkdirOk createOk copyOk insertOk).db := by
  unfold uploadPhoto
  repeat' split
  all_goals first
    | exact inv_of_eq rfl rfl rfl h
    | exact inv_of_eq (addTags_photos _ _ _) (addTags_albums _ _ _)
        (addTags_albumPhotos _ _ _) (inv_append_photo _ hfresh h)

theorem inv_updatePhoto (db : DB) (id : Nat) (ratingReq : Option Int)
    (saveOk : Bool) (h : Inv db) : Inv (updatePhoto db id ratingReq saveOk).db := by
  unfold updatePhoto
  dsimp only
  repeat' split
  all_goals first
    | exact inv_of_eq rfl rfl rfl h
    | exact inv_map_photos _ (fun p => by split <;> rfl)
        (fun p => by split <;> rfl) h

theorem inv_deletePhoto (db : DB) (fs : FS) (id : Nat) (txOk : Bool) (h : Inv db) :
    Inv (deletePhoto db fs id txOk).db := by
  unfold deletePhoto
  repeat' split
  all_goals first
    | exact inv_of_eq rfl rfl rfl h
    | exact @inv_shrink db _ (List.filter_sublist _) (List.Sublist.refl _)
        (fun x hx => List.mem_of_mem_filter hx) h

theorem inv_copyPhoto (db : DB) (fs : FS) (req : CopyReq)
    (mkdirOk createOk copyOk insertOk tagCopyOk : Bool)
    (hfresh : req.newPhotoId ∉ usedPhotoIds db) (h : Inv db) :
    Inv (copyPhoto db fs req mkdirOk createOk copyOk insertOk tagCopyOk).db := by
  unfold copyPhoto
  repeat' split
  all_goals first
    | exact inv_of_eq rfl rfl rfl h
    | exact inv_of_eq rfl rfl rfl (inv_append_photo _ hfresh h)

theorem inv_addPhotoToAlbum (db : DB) (albumId photoId : Nat) (ord : Int)
    (insertOk : Bool) (h : Inv db) :
    Inv (addPhotoToAlbum db albumId photoId ord insertOk).db := by
  unfold addPhotoToAlbum
  cases hfa : findAlbum db albumId with
  | none => exact h
  | some album =>
    cases hfp : findPhoto db photoId with
    | none => exact h
    | some photo =>
      by_cases hne : photo.libraryId = album.libraryId
      · have hb : (photo.libraryId != album.libraryId) = false := by simp [hne]
        simp only [hb, Bool.false_eq_true, if_false]
        split
        · exact h
        · split
          · exact inv_append_albumPhoto albumId photoId ord album photo hfa hfp hne h
          · exact h
      · have hb : (photo.libraryId != album.libraryId) = true := by simpa using hne
        simp only [hb, if_true]
        exact h

theorem inv_removePhotoFromAlbum (db : DB) (albumId photoId : Nat) (h : Inv db) :
    Inv (removePhotoFromAlbum db albumId photoId).db := by
  simp only [removePhotoFromAlbum]
  split
  · exact h
  · exact @inv_shrink db _ (List.Sublist.refl _) (List.Sublist.refl _)
      (fun x hx => List.mem_of_mem_filter hx) h

theorem inv_updatePhotoOrder (db : DB) (albumId photoId : Nat) (ord : Int)
    (h : Inv db) : Inv (updatePhotoOrder db albumId photoId ord).db := by
  unfold updatePhotoOrder
  split
  · exact h
  · exact inv_map_albumPhotos _ (fun x => by split <;> rfl)
      (fun x => by split <;> rfl) h

theorem inv_empty : Inv emptyDB := by
  refine ⟨?_, ?_, ?_⟩
  · intro ap hap
    exact absurd hap (List.not_mem_nil ap)
  · exact List.nodup_nil
  · exact List.nodup_nil

/-- Every reachable state satisfies the invariant. -/
theorem reachable_inv {db : DB} {fs : FS} (h : Reachable db fs) : Inv db := by
  induction h with
  | init => exact inv_empty
  | stepCreateLibrary name description images freshId mkdirOk insertOk _ ih =>
    exact inv_createLibrary _ _ name description images freshId mkdirOk insertOk ih
  | stepUpdateLibrary id nameReq descriptionReq imagesReq mkdirOk saveOk _ ih =>
    exact inv_updateLibrary _ _ id nameReq descriptionReq imagesReq mkdirOk saveOk ih
  | stepDeleteLibrary id txOk removeOk _ ih =>
    exact inv_deleteLibrary _ _ id txOk removeOk ih
  | stepCreateAlbum name description libraryId freshId insertOk _ hfresh ih =>
    exact inv_createAlbum _ name description libraryId freshId insertOk hfresh ih
  | stepUpdateAlbum id nameReq descriptionReq saveOk _ ih =>
    exact inv_updateAlbum _ id nameReq descriptionReq saveOk ih
  | stepDeleteAlbum id txOk _ ih =>
    exact inv_deleteAlbum _ id txOk ih
  | stepUploadPhoto cfg req mkdirOk createOk copyOk insertOk _ hfresh ih =>
    exact inv_uploadPhoto cfg _ _ req mkdirOk createOk copyOk insertOk hfresh ih
  | stepUpdatePhoto id ratingReq saveOk _ ih =>
    exact inv_updatePhoto _ id ratingReq saveOk ih
  | stepDeletePhoto id txOk _ ih =>
    exact inv_deletePhoto _ _ id txOk ih
  | stepCopyPhoto req mkdirOk createOk copyOk insertOk tagCopyOk _ hfresh ih =>
    exact inv_copyPhoto _ _ req mkdirOk createOk copyOk insertOk tagCopyOk hfresh ih
  | stepAddPhotoToAlbum albumId photoId ord insertOk _ ih =>
    exact inv_addPhotoToAlbum _ albumId photoId ord insertOk ih
  | stepRemovePhotoFromAlbum albumId photoId _ ih =>
    exact inv_removePhotoFromAlbum _ albumId photoId ih
  | stepUpdatePhotoOrder albumId photoId ord _ ih =>
    exact inv_updatePhotoOrder _ albumId photoId ord ih

/-- C4: adding a photo to an album of a different library is rejected
with 400 (a bad-request signal, not the 409 used for duplicates) and
creates no AlbumPhoto row — the whole store is unchanged; consequently,
in every state reachable by the handlers, every AlbumPhoto row joining
an existing photo and an existing album joins two rows with equal
library id. -/
theorem C4_cross_library_placement (db : DB) (albumId photoId : Nat) (ord : Int)
    (insertOk : Bool) (album : Album) (photo : Photo)
    (hfa : findAlbum db albumId = some album)
    (hfp : findPhoto db photoId = some photo)
    (hne : photo.libraryId ≠ album.libraryId) :
    addPhotoToAlbum db albumId photoId ord insertOk = ⟨db, 400⟩ ∧
    (∀ (db' : DB) (fs' : FS), Reachable db' fs' → crossOK db') := by
  constructor
  · unfold addPhotoToAlbum
    rw [hfa, hfp]
    have hb : (photo.libraryId != album.libraryId) = true := by simpa using hne
    simp [hb]
  · intro db' fs' hr
    exact (reachable_inv hr).1

/-- Two libraries, an album in library 2 and a photo in library 1. -/
def dbC4w : DB :=
  { libraries := [⟨1, "L1", "", "a"⟩, ⟨2, "L2", "", "b"⟩],
    albums := [⟨30, "Alb", "", 2⟩],
    photos := [⟨10, "x", "x", "a/x", "image/jpeg", 1, 1, 1, none, 1, 0⟩],
    tags := [], photoTags := [], albumPhotos := [] }

/-- Witness for C4: the concrete cross-library placement is refused with
400 and no row, and the invariant holds at a concrete reachable state
built by a create-library and a create-album step. -/
theorem C4_cross_library_placement_witness :
    addPhotoToAlbum dbC4w 30 10 0 true = ⟨dbC4w, 400⟩ ∧
    crossOK (createAlbum (createLibrary emptyDB emptyFS "A" "" "a" 1 true true).db
      "Al" "" 1 2 true).db := by
  have h := C4_cross_library_placement dbC4w 30 10 0 true ⟨30, "Alb", "", 2⟩
    ⟨10, "x", "x", "a/x", "image/jpeg", 1, 1, 1, none, 1, 0⟩
    (by decide) (by decide) (by decide)
  refine ⟨h.1, ?_⟩
  exact h.2 _ _
    (Reachable.stepCreateAlbum "Al" "" 1 2 true
      (Reachable.stepCreateLibrary "A" "" "a" 1 true true Reachable.init)
      (by decide))

end PhotoLib
